import Mathlib

/-! Shallow embedding of the wayback-tweets viewer (src/waybacktweets.py).

The program is a single script: it collects a username, a start date, an
end date and an optional set of HTTP status codes, fetches archived
captures through an external library, builds a pandas DataFrame, renames
its columns, coerces the timestamp column to datetimes, filters by date
range and status code, and offers the filtered table as a CSV download.

Modelling conventions:
* Calendar dates (`st.date_input` values) are modelled as integers
  counting days (`Date := Int`).
* Datetime values (pandas `Timestamp`) are modelled as integers counting
  seconds (`DateTime := Int`); `pd.Timestamp(d)` for a date `d` is
  midnight of that day (`d * 86400`), and `.date()` of a timestamp is
  floor division by 86400.  Both orders coincide with the pandas orders.
* A `NaT` timestamp (produced by `pd.to_datetime(..., errors="coerce")`
  on an unparseable string) is `Option.none`; pandas comparisons against
  `NaT` yield `False`, which the date mask reproduces.
* A DataFrame is a list of rows; boolean-mask filtering is `List.filter`,
  which, like pandas, keeps surviving rows in their original order.
-/

/-- Seconds in one day, the ratio between the date model and the
datetime model. -/
def secPerDay : Int := 86400

/-- The calendar date of a datetime: `timestamp.date()` in the source,
floor division in the model. -/
def DateTime.toDate (t : Int) : Int := Int.fdiv t secPerDay

/-- Midnight at the start of day `d`: what `pd.Timestamp(d)` yields
for a `datetime.date` value `d`. -/
def Date.toTimestamp (d : Int) : Int := d * secPerDay

/-- One row of the renamed, timestamp-coerced DataFrame (source lines
52-63): `timestamp` is the datetime column after
`pd.to_datetime(..., errors="coerce")`, so unparseable entries are
`none` (NaT). -/
structure Row where
  timestamp : Option Int
  original_url : String
  archived_url : String
  statuscode : String
deriving DecidableEq

/-- A RecordTable: the DataFrame as an ordered list of rows. -/
abbrev RecordTable := List Row

/-- The filter criteria the Streamlit widgets supply: two dates and the
(possibly empty) multiselect of status-code strings. -/
structure FilterCriteria where
  start_date : Int
  end_date : Int
  status_codes : List String

/-- The boolean mask of source lines 66-69:
`(df["timestamp"] >= pd.Timestamp(start_date)) & (df["timestamp"] <= pd.Timestamp(end_date))`.
A NaT timestamp compares `False` on both sides in pandas, hence `none`
is rejected. -/
def dateMask (s e : Int) (r : Row) : Bool :=
  match r.timestamp with
  | none => false
  | some t => decide (Date.toTimestamp s ≤ t) && decide (t ≤ Date.toTimestamp e)

/-- The date-range filtering step of source lines 66-69. -/
def dateFilter (s e : Int) (tbl : RecordTable) : RecordTable :=
  tbl.filter (dateMask s e)

/-- The status-code step of source lines 72-75: the Python test
`if status_codes_filter:` is true exactly for a non-empty list, and
`.isin` keeps rows whose statuscode is a member of the selection. -/
def statusFilter (codes : List String) (tbl : RecordTable) : RecordTable :=
  if codes = [] then tbl
  else tbl.filter (fun r => codes.contains r.statuscode)

/-- The whole Filter Pipeline (source lines 66-75): date filter, then
status filter. -/
def filterTweets (c : FilterCriteria) (tbl : RecordTable) : RecordTable :=
  statusFilter c.status_codes (dateFilter c.start_date c.end_date tbl)

/-- The date predicate as the spec words it: keep a row iff its
timestamp is non-null and `start_date <= timestamp.date() <= end_date`.
Stated for comparison with `dateMask`, the predicate the code runs. -/
def specDateKeep (s e : Int) (r : Row) : Bool :=
  match r.timestamp with
  | none => false
  | some t => decide (s ≤ DateTime.toDate t) && decide (DateTime.toDate t ≤ e)

/-! ## Record Table Builder (source lines 37-60)

`parsed_tweets` is a list of dicts; a dict is modelled as an
association list from field name to string value.  `pd.DataFrame` on a
list of dicts places the value of each dict for a column into the cell of
that row, and a dict that lacks the column gets a NaN cell — it does not
raise.  The subsequent `rename` only relabels the four columns. -/

/-- A structured record from the Capture Parser: a mapping of field
name to value. -/
abbrev ParsedRecord := List (String × String)

/-- The fixed `field_options` list of source lines 37-42. -/
def field_options : List String :=
  ["archived_timestamp", "original_tweet_url", "archived_tweet_url",
   "archived_statuscode"]

/-- A row of the DataFrame right after construction and renaming
(source lines 49-60), before timestamp coercion: each cell holds the
string the record holds for that field, or `none` (NaN) when the record omitted
the field. -/
structure RawRow where
  timestamp : Option String
  original_url : Option String
  archived_url : Option String
  statuscode : Option String
deriving DecidableEq

/-- Builds one DataFrame row from one parsed record:
`pd.DataFrame` cell lookup plus the fixed rename mapping
`archived_timestamp → timestamp`, `original_tweet_url → original_url`,
`archived_tweet_url → archived_url`, `archived_statuscode → statuscode`. -/
def buildRow (rec : ParsedRecord) : RawRow where
  timestamp := rec.lookup "archived_timestamp"
  original_url := rec.lookup "original_tweet_url"
  archived_url := rec.lookup "archived_tweet_url"
  statuscode := rec.lookup "archived_statuscode"

/-- One row per record, in order: `pd.DataFrame(parsed_tweets)`
followed by the rename. -/
def build (records : List ParsedRecord) : List RawRow :=
  records.map buildRow

/-- The Record Table Builder with its error channel made explicit.  The
SchemaError of the spec would live in the `Except.error` branch; the code
(`pd.DataFrame` + `rename`, source lines 49-60) never raises on a
missing key — it fills the cell with NaN — so the result is always
`Except.ok`. -/
def buildE (records : List ParsedRecord) : Except String (List RawRow) :=
  Except.ok (build records)

/-- Decides whether some record omits one of the four required field
names. -/
def missesRequiredField (records : List ParsedRecord) : Bool :=
  records.any (fun rec => field_options.any (fun f => (rec.lookup f).isNone))

/-! ## Export Encoder (source line 84)

`filtered_df.to_csv(index=False).encode("utf-8")`: a header line naming
the columns in DataFrame order, then one newline-terminated record per
row, with the csv default minimal quoting.  The byte sequence is the
UTF-8 encoding of this string; string equality models byte identity.
Datetime cells are printed in the fixed pandas format, which the model
renders through the decimal representation of the modelled instant
(any fixed injective rendering represents it); a NaT cell prints as the
empty string. -/

/-- Does a csv cell need quoting under the default QUOTE_MINIMAL rule:
it contains the delimiter, the quote character, or a line break. -/
def needsQuoting (s : String) : Bool :=
  s.data.any (fun c => c = ',' || c = '"' || c = '\n' || c = '\r')

/-- Doubles every quote character, the csv escape for a quote inside a
quoted cell. -/
def escapeQuotes : List Char → List Char
  | [] => []
  | c :: cs =>
      if c = '"' then '"' :: '"' :: escapeQuotes cs else c :: escapeQuotes cs

/-- Renders one csv cell: quoted with inner quotes doubled when needed,
verbatim otherwise. -/
def csvCell (s : String) : String :=
  if needsQuoting s then "\"" ++ String.mk (escapeQuotes s.data) ++ "\"" else s

/-- Renders a timestamp cell: pandas prints NaT as the empty string and
a datetime in its fixed format, modelled by the decimal form of the
instant. -/
def csvTimestamp : Option Int → String
  | none => ""
  | some t => toString t

/-- The header line: the renamed columns in their DataFrame order. -/
def csvHeader : String := "timestamp,original_url,archived_url,statuscode"

/-- One csv record for one row, cells joined by the comma delimiter. -/
def csvRecord (r : Row) : String :=
  String.intercalate ","
    [csvTimestamp r.timestamp, csvCell r.original_url, csvCell r.archived_url,
     csvCell r.statuscode]

/-- The serialization `to_csv(index=False)`: the header line and every
record, each terminated by a newline. -/
def encodeCSV (tbl : RecordTable) : String :=
  csvHeader ++ "\n" ++ String.join (tbl.map (fun r => csvRecord r ++ "\n"))

/-! ## Interaction Shell (source lines 22-96)

The observable outcome of one click of the Query button: the banners
emitted in order, the rows rendered through `st.dataframe` (none when
it is not called), and the download payload when the download button is
offered.  Retrieval, parsing and building are external collaborators;
they enter the model as a function from the username to the built,
timestamp-coerced RecordTable (the builder keeps one row per raw
capture, so the emptiness test of source line 35 coincides with
emptiness of this table). -/

/-- One Streamlit banner call. -/
inductive Banner where
  | error (msg : String)
  | info (msg : String)
  | success (msg : String)
  | warning (msg : String)
deriving DecidableEq

/-- Everything one Query click displays. -/
structure Display where
  banners : List Banner
  shownRows : List Row
  download : Option (String × String)
deriving DecidableEq

/-- Source line 25. -/
def usernameErrMsg : String := "Please enter a valid Twitter username."

/-- Source line 27. -/
def dateErrMsg : String := "The end date must be after the start date."

/-- Source line 29. -/
def fetchingMsg : String := "Fetching archived tweets. Please wait..."

/-- Source line 78, with the row count interpolated. -/
def foundMsg (n : Nat) : String :=
  "Found " ++ toString n ++ " tweets in the specified range."

/-- Source line 94: the notice when captures existed but none survived
the filters. -/
def emptyFilterMsg : String := "No tweets match the specified filters."

/-- Source line 96: the notice when the Archive Client returned zero
captures. -/
def emptyResultMsg : String := "No archived tweets found for the given username."

/-- Source lines 29-96: the branch taken after validation passed.
`archived` is the RecordTable built from the fetched captures. -/
def processFetched (username : String) (s e : Int) (codes : List String)
    (archived : RecordTable) : Display :=
  if archived = [] then
    { banners := [Banner.info fetchingMsg, Banner.warning emptyResultMsg],
      shownRows := [], download := none }
  else if filterTweets ⟨s, e, codes⟩ archived = [] then
    { banners := [Banner.info fetchingMsg,
                  Banner.success (foundMsg (filterTweets ⟨s, e, codes⟩ archived).length),
                  Banner.warning emptyFilterMsg],
      shownRows := [], download := none }
  else
    { banners := [Banner.info fetchingMsg,
                  Banner.success (foundMsg (filterTweets ⟨s, e, codes⟩ archived).length)],
      shownRows := filterTweets ⟨s, e, codes⟩ archived,
      download := some (encodeCSV (filterTweets ⟨s, e, codes⟩ archived),
                        username ++ "_archived_tweets.csv") }

/-- Source lines 22-96: one click of the Query button.  The Python
`if not username:` is true exactly for the empty string (no trimming),
and `start_date > end_date` raises the date error; only then does the
fetch run. -/
def runQuery (username : String) (s e : Int) (codes : List String)
    (fetch : String → RecordTable) : Display :=
  if username = "" then
    { banners := [Banner.error usernameErrMsg], shownRows := [], download := none }
  else if e < s then
    { banners := [Banner.error dateErrMsg], shownRows := [], download := none }
  else
    processFetched username s e codes (fetch username)

/-- A complete parsed record, all four fields present. -/
def recA : ParsedRecord :=
  [("archived_timestamp", "20240101000000"), ("original_tweet_url", "u1"),
   ("archived_tweet_url", "a1"), ("archived_statuscode", "200")]

/-- A parsed record that omits the required `archived_statuscode`
field. -/
def recB : ParsedRecord :=
  [("archived_timestamp", "20240102000000"), ("original_tweet_url", "u2"),
   ("archived_tweet_url", "a2")]

/-! ## Helper lemmas -/

/-- Filtering twice with the same predicate filters once. -/
theorem filter_self_idem (p : α → Bool) (l : List α) :
    (l.filter p).filter p = l.filter p := by
  induction l with
  | nil => rfl
  | cons a l ih =>
    by_cases hp : p a <;> simp [List.filter_cons, hp, ih]

/-- A pair of stacked filters is idempotent as a pair. -/
theorem filter_pair_idem (p q : α → Bool) (l : List α) :
    List.filter q (List.filter p (List.filter q (List.filter p l)))
      = List.filter q (List.filter p l) := by
  simp only [List.filter_filter]
  apply List.filter_congr
  intro x _
  cases p x <;> cases q x <;> rfl

/-- The pandas lower bound `pd.Timestamp(start_date) <= t` coincides
with the date form of the spec `start_date <= t.date()`: floor division
against midnight. -/
theorem toTimestamp_le_iff (s t : Int) :
    Date.toTimestamp s ≤ t ↔ s ≤ DateTime.toDate t := by
  unfold Date.toTimestamp DateTime.toDate secPerDay
  rw [Int.fdiv_eq_ediv t (by norm_num)]
  exact (Int.le_ediv_iff_mul_le (by norm_num)).symm

/-- Claim C1 counterexample: with `start_date = end_date = day 0`, a
row stamped noon of day 0 has its calendar date inside the range (the
spec predicate keeps it), yet the mask in the code compares the full
timestamp against midnight of the end date and drops it. -/
theorem dateFilter_drops_intraday_end_counterexample :
    (0 : Int) ≤ 0 ∧
    specDateKeep 0 0 ⟨some 43200, "u", "a", "200"⟩ = true ∧
    dateMask 0 0 ⟨some 43200, "u", "a", "200"⟩ = false ∧
    dateFilter 0 0 [⟨some 43200, "u", "a", "200"⟩] = [] := by
  decide

/-- Claim C1 (amended): the date-filtering step keeps a row iff its
timestamp is non-null, `start_date <= timestamp.date()`, and
`timestamp <= end_date` at midnight (not `timestamp.date() <= end_date`);
null-timestamp rows are always excluded. -/
theorem dateFilter_mem_iff (s e : Int) (tbl : RecordTable) (r : Row) :
    r ∈ dateFilter s e tbl ↔
      r ∈ tbl ∧ ∃ t, r.timestamp = some t ∧
        s ≤ DateTime.toDate t ∧ t ≤ Date.toTimestamp e := by
  unfold dateFilter
  rw [List.mem_filter]
  refine and_congr_right fun _ => ?_
  unfold dateMask
  cases h : r.timestamp with
  | none => simp [h]
  | some t => simp [h, toTimestamp_le_iff]

/-- Claim C6: the whole filter pipeline returns a subsequence of its
input — surviving rows keep their relative order, nothing is reordered
or deduplicated — and in particular never gains rows. -/
theorem filterTweets_sublist (c : FilterCriteria) (tbl : RecordTable) :
    List.Sublist (filterTweets c tbl) tbl ∧
      (filterTweets c tbl).length ≤ tbl.length := by
  have hsub : List.Sublist (filterTweets c tbl) tbl := by
    unfold filterTweets statusFilter dateFilter
    by_cases h : c.status_codes = []
    · simp only [h, if_pos rfl]
      exact List.filter_sublist tbl
    · rw [if_neg h]
      exact (List.filter_sublist _).trans (List.filter_sublist tbl)
  exact ⟨hsub, hsub.length_le⟩

/-- Claim C7: a row stamped exactly midnight of `start_date` or of
`end_date` passes the date mask and stays in the date-filtered table;
a row stamped one day outside either bound fails the mask and is
excluded. -/
theorem dateFilter_boundary (s e : Int) (u a c : String) (tbl : RecordTable)
    (hse : s ≤ e) :
    dateMask s e ⟨some (Date.toTimestamp s), u, a, c⟩ = true ∧
    dateMask s e ⟨some (Date.toTimestamp e), u, a, c⟩ = true ∧
    dateMask s e ⟨some (Date.toTimestamp (s - 1)), u, a, c⟩ = false ∧
    dateMask s e ⟨some (Date.toTimestamp (e + 1)), u, a, c⟩ = false ∧
    (∀ r ∈ tbl, dateMask s e r = true → r ∈ dateFilter s e tbl) ∧
    (∀ r, dateMask s e r = false → r ∉ dateFilter s e tbl) := by
  have hmono : Date.toTimestamp s ≤ Date.toTimestamp e :=
    mul_le_mul_of_nonneg_right hse (by norm_num [secPerDay])
  have hlt : ∀ d : Int, Date.toTimestamp (d - 1) < Date.toTimestamp d := by
    intro d
    apply mul_lt_mul_of_pos_right _ (by norm_num [secPerDay])
    omega
  refine ⟨?_, ?_, ?_, ?_, ?_, ?_⟩
  · simp [dateMask, hmono]
  · simp [dateMask, hmono]
  · have := hlt s
    simp [dateMask]
    omega
  · have := hlt (e + 1)
    simp at this
    simp [dateMask]
    omega
  · intro r hr hmask
    exact List.mem_filter.mpr ⟨hr, hmask⟩
  · intro r hmask hr
    have := (List.mem_filter.mp hr).2
    simp [hmask] at this

/-- Claim C8: the filter pipeline is idempotent — running it again on
its own output with the same criteria changes nothing. -/
theorem filterTweets_idem (c : FilterCriteria) (tbl : RecordTable) :
    filterTweets c (filterTweets c tbl) = filterTweets c tbl := by
  unfold filterTweets statusFilter dateFilter
  by_cases h : c.status_codes = []
  · simp only [h, if_pos rfl]
    exact filter_self_idem _ tbl
  · simp only [if_neg h]
    exact filter_pair_idem _ _ tbl

/-- Claim C7 witness at a concrete range. -/
theorem dateFilter_boundary_witness :
    dateMask 0 2 ⟨some (Date.toTimestamp 0), "u", "a", "200"⟩ = true ∧
    dateMask 0 2 ⟨some (Date.toTimestamp 2), "u", "a", "200"⟩ = true ∧
    dateMask 0 2 ⟨some (Date.toTimestamp (0 - 1)), "u", "a", "200"⟩ = false ∧
    dateMask 0 2 ⟨some (Date.toTimestamp (2 + 1)), "u", "a", "200"⟩ = false := by
  have h := dateFilter_boundary 0 2 "u" "a" "200" [] (by norm_num)
  exact ⟨h.1, h.2.1, h.2.2.1, h.2.2.2.1⟩

/-- Claim C4: with a non-empty selection the status step keeps exactly
the rows whose statuscode is in the selection; with an empty selection
it removes nothing; and on the three-row scenario of the spec (statuscodes
200, 404, 200, dates within range, selection containing only 200) the
pipeline returns the two statuscode-200 rows in their original
order. -/
theorem statusFilter_spec :
    (∀ (codes : List String) (tbl : RecordTable) (r : Row), codes ≠ [] →
        (r ∈ statusFilter codes tbl ↔ r ∈ tbl ∧ r.statuscode ∈ codes)) ∧
    (∀ tbl : RecordTable, statusFilter [] tbl = tbl) ∧
    filterTweets ⟨0, 1, ["200"]⟩
        [⟨some 0, "u1", "a1", "200"⟩, ⟨some 43200, "u2", "a2", "404"⟩,
         ⟨some 86400, "u3", "a3", "200"⟩]
      = [⟨some 0, "u1", "a1", "200"⟩, ⟨some 86400, "u3", "a3", "200"⟩] := by
  refine ⟨?_, ?_, by decide⟩
  · intro codes tbl r h
    simp [statusFilter, h, List.mem_filter]
  · intro tbl
    simp [statusFilter]

/-- Claim C4 witness: the membership characterization applied at a
singleton table and a one-element selection. -/
theorem statusFilter_spec_witness :
    (⟨some 0, "u", "a", "200"⟩ : Row) ∈
      statusFilter ["200"] [⟨some 0, "u", "a", "200"⟩] :=
  (statusFilter_spec.1 ["200"] [⟨some 0, "u", "a", "200"⟩]
      ⟨some 0, "u", "a", "200"⟩ (by decide)).mpr ⟨by decide, by decide⟩

/-- Claim C5: when the end date precedes the start date (and the
username field is non-empty, so the earlier check does not fire), the
click produces only the date-error banner; no rows are shown, no
download is offered, and the outcome is the same for every possible
fetch function — retrieval and filtering never run. -/
theorem invalidRange_rejected (u : String) (s e : Int) (codes : List String)
    (fetch : String → RecordTable) (hu : u ≠ "") (h : e < s) :
    runQuery u s e codes fetch =
      { banners := [Banner.error dateErrMsg], shownRows := [], download := none } := by
  unfold runQuery
  rw [if_neg hu, if_pos h]

/-- Claim C5 witness: Scenario B with concrete dates. -/
theorem invalidRange_rejected_witness :
    runQuery "elonmusk" 10 5 [] (fun _ => [⟨some 0, "u", "a", "200"⟩])
      = { banners := [Banner.error dateErrMsg], shownRows := [], download := none } :=
  invalidRange_rejected "elonmusk" 10 5 [] (fun _ => [⟨some 0, "u", "a", "200"⟩])
    (by decide) (by decide)

/-- Claim C10: the handle check rejects exactly the empty string — a
whitespace-only handle is truthy in Python, passes validation, and the
click proceeds to retrieval and processing of the fetched captures. -/
theorem usernameCheck_exact_empty :
    (∀ (s e : Int) (codes : List String) (fetch : String → RecordTable),
        runQuery "" s e codes fetch =
          { banners := [Banner.error usernameErrMsg], shownRows := [],
            download := none }) ∧
    (∀ (s e : Int) (codes : List String) (fetch : String → RecordTable), s ≤ e →
        runQuery "   " s e codes fetch =
          processFetched "   " s e codes (fetch "   ")) := by
  constructor
  · intro s e codes fetch
    unfold runQuery
    rw [if_pos rfl]
  · intro s e codes fetch hse
    unfold runQuery
    rw [if_neg (by decide), if_neg (not_lt.mpr hse)]

/-- Claim C10 witness: the empty handle is rejected, the three-space
handle reaches the retrieval branch. -/
theorem usernameCheck_exact_empty_witness :
    runQuery "" 0 0 [] (fun _ => [])
        = { banners := [Banner.error usernameErrMsg], shownRows := [],
            download := none } ∧
    runQuery "   " 0 0 [] (fun _ => []) = processFetched "   " 0 0 [] [] :=
  ⟨usernameCheck_exact_empty.1 0 0 [] (fun _ => []),
   usernameCheck_exact_empty.2 0 0 [] (fun _ => []) (le_refl 0)⟩

/-- Claim C2 counterexample: a record list whose second record omits
`archived_statuscode` still builds successfully — the builder returns
`ok` with `none` (NaN) in the missing cell instead of raising a
SchemaError. -/
theorem build_ok_despite_missing_field_counterexample :
    missesRequiredField [recA, recB] = true ∧
    build [recA, recB] =
      [⟨some "20240101000000", some "u1", some "a1", some "200"⟩,
       ⟨some "20240102000000", some "u2", some "a2", none⟩] ∧
    buildE [recA, recB] = Except.ok (build [recA, recB]) :=
  ⟨by decide, by decide, rfl⟩

/-- Claim C2 (amended): when some parsed record omits a required field
the Record Table Builder does not fail — it returns `ok`, keeps one row
per record, and the affected row carries a null cell where the value of the
missing field would be. -/
theorem buildE_never_fails (records : List ParsedRecord)
    (h : missesRequiredField records = true) :
    ∃ tbl, buildE records = Except.ok tbl ∧ tbl.length = records.length ∧
      ∃ r ∈ tbl, r.timestamp = none ∨ r.original_url = none ∨
        r.archived_url = none ∨ r.statuscode = none := by
  refine ⟨build records, rfl, by simp [build], ?_⟩
  simp only [missesRequiredField, List.any_eq_true, Option.isNone_iff_eq_none] at h
  obtain ⟨rec, hrec, f, hf, hnone⟩ := h
  refine ⟨buildRow rec, List.mem_map_of_mem buildRow hrec, ?_⟩
  simp only [field_options, List.mem_cons, List.not_mem_nil, or_false] at hf
  rcases hf with h1 | h1 | h1 | h1
  · exact Or.inl (by subst h1; exact hnone)
  · exact Or.inr (Or.inl (by subst h1; exact hnone))
  · exact Or.inr (Or.inr (Or.inl (by subst h1; exact hnone)))
  · exact Or.inr (Or.inr (Or.inr (by subst h1; exact hnone)))

/-- Claim C2 witness for the amended statement, at the concrete record
pair. -/
theorem buildE_never_fails_witness :
    ∃ tbl, buildE [recA, recB] = Except.ok tbl ∧
      tbl.length = [recA, recB].length ∧
      ∃ r ∈ tbl, r.timestamp = none ∨ r.original_url = none ∨
        r.archived_url = none ∨ r.statuscode = none :=
  buildE_never_fails [recA, recB] (by decide)

/-- Claim C3: valid inputs, a non-empty fetched capture table, and a
filter that excludes every row produce the empty-filter notice — a
warning distinct from the zero-captures notice — with no rows rendered
and no download offered. -/
theorem emptyFilterNotice_branch (u : String) (s e : Int) (codes : List String)
    (fetch : String → RecordTable) (hu : u ≠ "") (hse : s ≤ e)
    (hne : fetch u ≠ []) (hf : filterTweets ⟨s, e, codes⟩ (fetch u) = []) :
    runQuery u s e codes fetch =
      { banners := [Banner.info fetchingMsg, Banner.success (foundMsg 0),
                    Banner.warning emptyFilterMsg],
        shownRows := [], download := none } ∧
    emptyFilterMsg ≠ emptyResultMsg := by
  refine ⟨?_, by decide⟩
  unfold runQuery
  rw [if_neg hu, if_neg (not_lt.mpr hse)]
  unfold processFetched
  rw [if_neg hne, hf, if_pos rfl]
  simp

/-- Claim C3 witness: one capture whose timestamp failed to parse, so
the date step excludes it. -/
theorem emptyFilterNotice_branch_witness :
    runQuery "x" 0 0 [] (fun _ => [⟨none, "u", "a", "200"⟩])
        = { banners := [Banner.info fetchingMsg, Banner.success (foundMsg 0),
                        Banner.warning emptyFilterMsg],
            shownRows := [], download := none } ∧
    emptyFilterMsg ≠ emptyResultMsg :=
  emptyFilterNotice_branch "x" 0 0 [] (fun _ => [⟨none, "u", "a", "200"⟩])
    (by decide) (by decide) (by decide) (by decide)

/-- Claim C9: the export encoder is a pure function — equal filtered
tables give byte-identical output — whose output opens with the header
line naming the four columns in the order timestamp, original_url,
archived_url, statuscode, followed by exactly one newline-terminated
record per input row. -/
theorem encodeCSV_spec (t₁ t₂ : RecordTable) (h : t₁ = t₂) :
    encodeCSV t₁ = encodeCSV t₂ ∧
    csvHeader = "timestamp,original_url,archived_url,statuscode" ∧
    encodeCSV t₁ = csvHeader ++ "\n" ++
      String.join ((t₁.map csvRecord).map (fun rec => rec ++ "\n")) ∧
    (t₁.map csvRecord).length = t₁.length := by
  subst h
  refine ⟨rfl, rfl, ?_, by simp⟩
  simp only [encodeCSV, List.map_map]
  rfl

/-- Claim C9 witness at a one-row table. -/
theorem encodeCSV_spec_witness :
    encodeCSV [⟨some 0, "u", "a", "200"⟩] = encodeCSV [⟨some 0, "u", "a", "200"⟩] ∧
    csvHeader = "timestamp,original_url,archived_url,statuscode" ∧
    encodeCSV [⟨some 0, "u", "a", "200"⟩] = csvHeader ++ "\n" ++
      String.join (([⟨some 0, "u", "a", "200"⟩].map csvRecord).map
        (fun rec => rec ++ "\n")) ∧
    ([(⟨some 0, "u", "a", "200"⟩ : Row)].map csvRecord).length
      = [(⟨some 0, "u", "a", "200"⟩ : Row)].length :=
  encodeCSV_spec [⟨some 0, "u", "a", "200"⟩] [⟨some 0, "u", "a", "200"⟩] rfl
